import Mathlib

/-
Verification of the personal-finance conversational assistant:
shallow embedding of the financial operations (functions.py), the
storage layer (db.py), the exchange-rate client (api.py) and the
intent dispatcher (gemini_agent.py), with theorems settling the
specification claims.
-/

namespace FinAssist

/-! ### Calendar helpers: model of datetime.strptime(date, "%Y-%m-%d") -/

/-- Gregorian leap-year test, as used by datetime. -/
def isLeap (y : Nat) : Bool :=
  (y % 4 == 0 && y % 100 != 0) || (y % 400 == 0)

/-- Number of days in a month, as enforced by the datetime constructor. -/
def daysInMonth (y m : Nat) : Nat :=
  if m == 2 then (if isLeap y then 29 else 28)
  else if m == 4 || m == 6 || m == 9 || m == 11 then 30
  else 31

/-- Split a character list on the dash separator (the "-" literals of the
"%Y-%m-%d" format string). -/
def splitDash : List Char → List (List Char)
  | [] => [[]]
  | c :: rest =>
    if c == '-' then [] :: splitDash rest
    else
      match splitDash rest with
      | [] => [[c]]
      | g :: gs => (c :: g) :: gs

/-- Numeric value of a digit string, most significant digit first. -/
def digitsVal (acc : Nat) : List Char → Nat
  | [] => acc
  | c :: rest => digitsVal (acc * 10 + (c.toNat - 48)) rest

/-- Model of datetime.strptime(s, "%Y-%m-%d"): the year is exactly four
digits, month and day one or two digits, month in 1..12, day valid for
the month, year at least 1 (datetime.MINYEAR). Returns the parsed
(year, month, day) or none where strptime raises ValueError. -/
def parseYMD (s : String) : Option (Nat × Nat × Nat) :=
  match splitDash s.data with
  | [ys, ms, ds] =>
    if (ys.length == 4 && ys.all Char.isDigit
        && decide (1 ≤ ms.length) && decide (ms.length ≤ 2) && ms.all Char.isDigit
        && decide (1 ≤ ds.length) && decide (ds.length ≤ 2) && ds.all Char.isDigit) then
      let y := digitsVal 0 ys
      let m := digitsVal 0 ms
      let d := digitsVal 0 ds
      if (decide (1 ≤ y) && decide (1 ≤ m) && decide (m ≤ 12)
          && decide (1 ≤ d) && decide (d ≤ daysInMonth y m)) then
        some (y, m, d)
      else none
    else none
  | _ => none

example : parseYMD "2024-05-15" = some (2024, 5, 15) := by decide
example : parseYMD "" = none := by decide
example : parseYMD "2024-13-01" = none := by decide
example : parseYMD "2024-02-29" = some (2024, 2, 29) := by decide
example : parseYMD "2023-02-29" = none := by decide

/-- Lexicographic comparison of character lists by code point. For the
ASCII date strings stored by this program this coincides with the byte
order SQLite uses to compare TEXT values. -/
def charListLe : List Char → List Char → Bool
  | [], _ => true
  | _ :: _, [] => false
  | a :: as, b :: bs =>
    if a.toNat < b.toNat then true
    else if a.toNat == b.toNat then charListLe as bs
    else false

/-- SQLite TEXT comparison of two strings (byte order on ASCII data). -/
def strLe (s t : String) : Bool := charListLe s.data t.data

/-- Strict version of strLe, for the date < bound used by the raw
Database.get_monthly_summary query. -/
def strLt (s t : String) : Bool := strLe s t && !(s == t)

example : strLe "2024-06-01" "2024-07-01" = true := by decide
example : strLe "2024-07-01" "2024-07-01" = true := by decide
example : strLt "2024-07-01" "2024-07-01" = false := by decide

/-! ### Data model -/

/-- A Python scalar value as delivered in a model function-call argument
payload: an int, a float (both numeric), or a string. -/
inductive PVal where
  | vInt (n : Int)
  | vNum (q : ℚ)
  | vStr (s : String)
deriving DecidableEq, Repr

/-- The amount argument of a log operation, as seen by the isinstance
check in functions.py: numeric (int or float) or not. -/
inductive PyNum where
  | num (q : ℚ)
  | nonNum (s : String)
deriving DecidableEq, Repr

/-- Coercion of a model argument value to the amount parameter. -/
def toPyNum : PVal → PyNum
  | .vInt n => .num (n : ℚ)
  | .vNum q => .num q
  | .vStr s => .nonNum s

/-- One row of the transactions table (the id and created_at columns are
server assigned and claim irrelevant: the row position in the list plays
the role of the monotonic id). -/
structure Txn where
  user_id : Int
  amount : ℚ
  category : String
  date : String
  ttype : String
deriving DecidableEq, Repr

/-- The monthly summary payload of get_monthly_summary. -/
structure Summary where
  income : ℚ
  expenses : ℚ
  balance : ℚ
  transactions : Nat
deriving DecidableEq, Repr

/-- The uniform result envelope of the four financial operations:
one success shape per operation plus the failure shape. -/
inductive Envelope where
  | okMsg (message : String)
  | okSummary (s : Summary)
  | okRate (rfrom rto : String) (rate : ℚ) (rdate : String)
  | err (error : String)
deriving DecidableEq, Repr

/-- Success flag of an envelope (the "success" key of the result dict). -/
def isSuccess : Envelope → Bool
  | .err _ => false
  | _ => true

/-! ### Storage layer (db.py) -/

/-- Database.add_transaction: INSERT of one row into the transactions
table (the append-only ledger). -/
def add_transaction (db : List Txn) (t : Txn) : List Txn := db ++ [t]

/-- Database.get_transactions: SELECT ... WHERE user_id = ? with the
optional bounds date >= start_date AND date <= end_date. Both bounds are
inclusive in the source. The ORDER BY date DESC clause is omitted here:
the callers only sum amounts and count rows, which is order independent. -/
def get_transactions (db : List Txn) (u : Int) (start_date end_date : Option String) : List Txn :=
  db.filter (fun t =>
    t.user_id == u
    && (match start_date with | none => true | some s => strLe s t.date)
    && (match end_date with | none => true | some e => strLe t.date e))

/-- Month start string f"{year}-{month:02d}-01", shared by
functions.get_monthly_summary and Database.get_monthly_summary. -/
def monthStart (year month : Int) : String :=
  toString year ++ "-" ++ (if month < 10 then "0" else "") ++ toString month ++ "-01"

/-- Month end string: f"{year+1}-01-01" for December, else
f"{year}-{month+1:02d}-01". -/
def monthEnd (year month : Int) : String :=
  if month == 12 then toString (year + 1) ++ "-01-01"
  else toString year ++ "-" ++ (if month + 1 < 10 then "0" else "") ++ toString (month + 1) ++ "-01"

/-- Summary aggregation over a list of fetched rows, as computed by
functions.get_monthly_summary: sum of income amounts, sum of expense
amounts, balance income - expenses, and the row count. -/
def summaryOfTxns (ts : List Txn) : Summary :=
  let income := ((ts.filter (fun t => t.ttype == "income")).map Txn.amount).sum
  let expenses := ((ts.filter (fun t => t.ttype == "expense")).map Txn.amount).sum
  { income := income, expenses := expenses, balance := income - expenses,
    transactions := ts.length }

/-- Database.get_monthly_summary (the raw aggregate query, unused by
functions.py): filters with date >= start AND date < end, the strict
upper bound. -/
def dbMonthlySummary (db : List Txn) (u : Int) (year month : Int) : Summary :=
  summaryOfTxns (db.filter (fun t =>
    t.user_id == u && strLe (monthStart year month) t.date && strLt t.date (monthEnd year month)))

example : monthStart 2024 6 = "2024-06-01" := by decide
example : monthEnd 2024 6 = "2024-07-01" := by decide
example : monthEnd 2024 12 = "2025-01-01" := by decide

/-! ### Users and sessions (db.py)

Timestamps are modelled as integers counting hours; the datetime strings
the source compares are order isomorphic to this time line, and the
24-hour window of the SQL predicate datetime(now, -24 hours) is the
constant 24 below. -/

/-- One row of the users table. The created_at column is claim
irrelevant and omitted. last_login is NULL until the first successful
authentication. -/
structure UserRec where
  id : Int
  username : String
  email : String
  password_hash : String
  session_token : Option String
  last_login : Option Int
deriving DecidableEq, Repr

/-- The 24-hour sliding session window, in hours. -/
def WINDOW : Int := 24

/-- Result shape of Database.get_user_by_token: the success dict with
the user fields, or the failure dict with an error message. -/
inductive AuthResult where
  | okUser (user_id : Int) (username email : String)
  | failure (error : String)
deriving DecidableEq, Repr

/-- Row predicate of the SELECT in get_user_by_token:
session_token = ? AND last_login > datetime(now, -24 hours). A NULL
last_login makes the SQL comparison NULL, so the row is not selected. -/
def tokenFresh (tok : String) (now : Int) (u : UserRec) : Bool :=
  u.session_token == some tok
    && (match u.last_login with
        | none => false
        | some t => decide (now - WINDOW < t))

/-- Database.get_user_by_token: resolve a session credential to the user
identity, failing when the token is unknown or the last login is outside
the 24-hour window. A pure SELECT: it writes nothing. -/
def get_user_by_token (users : List UserRec) (tok : String) (now : Int) : AuthResult :=
  match users.find? (tokenFresh tok now) with
  | none => .failure "Invalid or expired session token"
  | some u => .okUser u.id u.username u.email

/-- The users table after get_user_by_token runs: the function performs
only a SELECT, so the table is returned unchanged. -/
def get_user_by_tokenS (users : List UserRec) (tok : String) (now : Int) :
    AuthResult × List UserRec :=
  (get_user_by_token users tok now, users)

/-- Database.create_user: INSERT of a new user row with a fresh session
token and no last_login (the INSERT lists no last_login column, so it is
NULL). A duplicate username, email or token violates a UNIQUE constraint
and the function returns None. The password hash and the generated token
are parameters (hashlib and secrets are external). -/
def create_user (users : List UserRec) (uname email pwHash tok : String) (nid : Int) :
    Option String × List UserRec :=
  if users.any (fun u => u.username == uname || u.email == email
      || u.session_token == some tok) then
    (none, users)
  else
    (some tok, users ++ [{ id := nid, username := uname, email := email,
                           password_hash := pwHash, session_token := some tok,
                           last_login := none }])

/-- Database.authenticate_user: look the user up by username, compare
the password hash, and on match rotate the session token and stamp
last_login with the current time (the UPDATE ... WHERE id = ?). hashFn
models hashlib.sha256 hexdigest; newTok models the fresh secrets token. -/
def authenticate_user (hashFn : String → String) (users : List UserRec)
    (uname pw newTok : String) (now : Int) : Option String × List UserRec :=
  match users.find? (fun u => u.username == uname) with
  | none => (none, users)
  | some u =>
    if !(hashFn pw == u.password_hash) then (none, users)
    else
      (some newTok,
       users.map (fun v =>
         if v.id == u.id then
           { v with session_token := some newTok, last_login := some now }
         else v))

/-! ### Exchange rates: cache (db.py) and provider client (api.py) -/

/-- Python str.upper() restricted to the ASCII currency codes this
program handles. -/
def pyUpper (s : String) : String := String.mk (s.data.map Char.toUpper)

/-- One row of the exchange_rates table. -/
structure RateRow where
  from_currency : String
  to_currency : String
  rate : ℚ
  date : String
deriving DecidableEq, Repr

/-- The ORDER BY date DESC LIMIT 1 row choice: the row with the latest
date among the filtered rows (first such row on ties). -/
def latestRow : List RateRow → Option RateRow
  | [] => none
  | r :: rest =>
    match latestRow rest with
    | none => some r
    | some b => if strLt b.date r.date then some r else some b

/-- Database.get_exchange_rate: the cache lookup. Both codes are
upper-cased before they are compared with the stored key columns. -/
def dbGetExchangeRate (rows : List RateRow) (from_currency to_currency : String) :
    Option (ℚ × String) :=
  match latestRow (rows.filter (fun r =>
      r.from_currency == pyUpper from_currency
        && r.to_currency == pyUpper to_currency)) with
  | none => none
  | some r => some (r.rate, r.date)

/-- The query-string parameters of the GET request the ExchangeRateAPI
client sends to the provider: the from and to codes exactly as supplied
by the caller (api.py performs no case normalization). -/
structure ProviderReq where
  url : String
  pfrom : String
  pto : String
deriving DecidableEq, Repr

/-- ExchangeRateAPI.get_exchange_rate builds its request from the raw
arguments: url base_url + /fetch-one, params from=from_currency,
to=to_currency. The api_key parameter is claim irrelevant and omitted. -/
def apiBuildRequest (from_currency to_currency : String) : ProviderReq :=
  { url := "https://api.fastforex.io/fetch-one",
    pfrom := from_currency, pto := to_currency }

/-- The body of a provider response: the result mapping of currency code
to rate, and the updated timestamp string. -/
structure ProviderResp where
  result : List (String × ℚ)
  updated : String
deriving DecidableEq, Repr

/-- What one call to the provider can do: answer, fail at transport
level (requests.RequestException), or answer with a malformed body that
makes data[result] raise past the RequestException handler. -/
inductive ProviderOutcome where
  | resp (r : ProviderResp)
  | transportErr (msg : String)
  | malformed (msg : String)
deriving Repr

/-- The result dict of ExchangeRateAPI.get_exchange_rate. -/
inductive ApiResult where
  | okR (rate : ℚ) (date : String) (rfrom rto : String)
  | fail (error : String)
deriving DecidableEq, Repr

/-- ExchangeRateAPI.get_exchange_rate: sends the request built from the
raw codes, reads data[result].get(to_currency) with the raw to code (a
case-sensitive dict lookup), and catches only RequestException; a
malformed body raises past this boundary (the Except error case). -/
def apiGetExchangeRate (provider : ProviderReq → ProviderOutcome)
    (from_currency to_currency : String) : Except String ApiResult :=
  match provider (apiBuildRequest from_currency to_currency) with
  | .transportErr msg => .ok (.fail msg)
  | .malformed msg => .error msg
  | .resp data =>
    match data.result.lookup to_currency with
    | none => .ok (.fail ("Exchange rate not found for " ++ to_currency))
    | some r => .ok (.okR r data.updated from_currency to_currency)

/-! ### Financial operations (functions.py)

Each operation is embedded twice: an E body mirroring the try block,
returning Except String (an error value models a Python exception
crossing that point), and a Run wrapper mirroring the surrounding
try/except Exception handler, which converts any exception into the
failure envelope. The storage and provider collaborators are passed as
fallible functions so that their unexpected exceptions are quantifiable. -/

/-- Truthiness of the user_id argument (None or 0 is falsy). -/
def userIdFalsy : Option Int → Bool
  | none => true
  | some n => n == 0

/-- The user id value once known truthy. -/
def userIdVal (u : Option Int) : Int := u.getD 0

/-- The date after default filling: if not date, the current calendar
date (today, the strftime of datetime.now) is substituted; None and the
empty string are the falsy cases. -/
def effDate (dateArg : Option String) (today : String) : String :=
  match dateArg with
  | none => today
  | some s => if s == "" then today else s

/-- The category/source validation: not category or not
isinstance(category, str) rejects non-strings and the empty string. -/
def categoryStr : PVal → Option String
  | .vStr s => if s == "" then none else some s
  | _ => none

/-- Two-decimal rendering of a rational amount, standing in for the
Python format {:.2f} (which rounds a float; exact half cases of binary
floats are abstracted by this exact rounding). -/
def fmtFixed (prec : Nat) (q : ℚ) : String :=
  let scaled : Int := (q * (10 : ℚ) ^ prec + 1 / 2).floor
  let sign := if scaled < 0 then "-" else ""
  let a := scaled.natAbs
  let ip := a / 10 ^ prec
  let fp := a % 10 ^ prec
  let fs := toString fp
  let pad := String.mk (List.replicate (prec - fs.length) '0')
  sign ++ toString ip ++ (if prec == 0 then "" else "." ++ pad ++ fs)

def USER_ERR : String := "User ID is required for transactions"
def AMOUNT_ERR : String := "Amount must be a positive number"
def CATEGORY_ERR : String := "Category must be a non-empty string"
def SOURCE_ERR : String := "Source must be a non-empty string"
def DATE_ERR : String := "Date must be in YYYY-MM-DD format"

/-- The success message of log_expense. -/
def expenseMessage (q : ℚ) (category date : String) : String :=
  "Expense of $" ++ fmtFixed 2 q ++ " for " ++ category ++ " on " ++ date
    ++ " has been logged."

/-- The success message of log_income. -/
def incomeMessage (q : ℚ) (source date : String) : String :=
  "Income of $" ++ fmtFixed 2 q ++ " from " ++ source ++ " on " ++ date
    ++ " has been logged."

/-- Try-block body of FinancialFunctions.log_expense: user check, date
default, amount validation, category validation, strptime validation,
then the store insert (which may raise: the addTx collaborator). -/
def log_expenseE (addTx : List Txn → Txn → Except String (List Txn))
    (user_id : Option Int) (amount : PyNum) (category : PVal)
    (dateArg : Option String) (today : String) (db : List Txn) :
    Except String (Envelope × List Txn) :=
  if userIdFalsy user_id then .ok (.err USER_ERR, db) else
  let date := effDate dateArg today
  match amount with
  | .nonNum _ => .ok (.err AMOUNT_ERR, db)
  | .num q =>
    if q ≤ 0 then .ok (.err AMOUNT_ERR, db)
    else
      match categoryStr category with
      | none => .ok (.err CATEGORY_ERR, db)
      | some cat =>
        if (parseYMD date).isNone then .ok (.err DATE_ERR, db)
        else
          match addTx db { user_id := userIdVal user_id, amount := q,
                           category := cat, date := date, ttype := "expense" } with
          | .error e => .error e
          | .ok db2 => .ok (.okMsg (expenseMessage q cat date), db2)

/-- FinancialFunctions.log_expense: the try/except Exception wrapper
around the body; any exception becomes the failure envelope and the
store is left as it was. -/
def log_expenseRun (addTx : List Txn → Txn → Except String (List Txn))
    (user_id : Option Int) (amount : PyNum) (category : PVal)
    (dateArg : Option String) (today : String) (db : List Txn) :
    Envelope × List Txn :=
  match log_expenseE addTx user_id amount category dateArg today db with
  | .ok r => r
  | .error e => (.err e, db)

/-- Try-block body of FinancialFunctions.log_income: identical to the
expense body except for the source wording and the income row type. -/
def log_incomeE (addTx : List Txn → Txn → Except String (List Txn))
    (user_id : Option Int) (amount : PyNum) (source : PVal)
    (dateArg : Option String) (today : String) (db : List Txn) :
    Except String (Envelope × List Txn) :=
  if userIdFalsy user_id then .ok (.err USER_ERR, db) else
  let date := effDate dateArg today
  match amount with
  | .nonNum _ => .ok (.err AMOUNT_ERR, db)
  | .num q =>
    if q ≤ 0 then .ok (.err AMOUNT_ERR, db)
    else
      match categoryStr source with
      | none => .ok (.err SOURCE_ERR, db)
      | some src =>
        if (parseYMD date).isNone then .ok (.err DATE_ERR, db)
        else
          match addTx db { user_id := userIdVal user_id, amount := q,
                           category := src, date := date, ttype := "income" } with
          | .error e => .error e
          | .ok db2 => .ok (.okMsg (incomeMessage q src date), db2)

/-- FinancialFunctions.log_income with its try/except Exception. -/
def log_incomeRun (addTx : List Txn → Txn → Except String (List Txn))
    (user_id : Option Int) (amount : PyNum) (source : PVal)
    (dateArg : Option String) (today : String) (db : List Txn) :
    Envelope × List Txn :=
  match log_incomeE addTx user_id amount source dateArg today db with
  | .ok r => r
  | .error e => (.err e, db)

/-- The normally behaving store insert: Database.add_transaction without
a storage fault. -/
def addTxOk : List Txn → Txn → Except String (List Txn) :=
  fun db t => .ok (add_transaction db t)

/-- Truthiness of an optional int argument (month and year in
get_monthly_summary: None and 0 are falsy). -/
def intFalsy : Option Int → Bool
  | none => true
  | some n => n == 0

/-- The month-or-default computation (month or now.month). -/
def orDefault (x : Option Int) (d : Int) : Int :=
  match x with
  | none => d
  | some v => if v == 0 then d else v

/-- Default filling of month and year in get_monthly_summary: if either
is falsy, each falsy one is replaced by the current month or year. -/
def fillDefaults (month year : Option Int) (nowMonth nowYear : Int) : Int × Int :=
  if intFalsy month || intFalsy year then
    (orDefault month nowMonth, orDefault year nowYear)
  else
    (month.getD 0, year.getD 0)

def MONTH_ERR : String := "Month must be a number between 1 and 12"
def YEAR_ERR : String := "Year must be a valid year"

/-- Try-block body of FinancialFunctions.get_monthly_summary: user
check, month/year default filling, range validation, then the fetch of
the rows in [start_date, end_date] through Database.get_transactions
(the getTx collaborator, which may raise) and the aggregation. -/
def get_monthly_summaryE (getTx : Int → String → String → Except String (List Txn))
    (user_id : Option Int) (month year : Option Int) (nowMonth nowYear : Int) :
    Except String Envelope :=
  if userIdFalsy user_id then .ok (.err USER_ERR) else
  let my := fillDefaults month year nowMonth nowYear
  let m := my.1
  let y := my.2
  if !(decide (1 ≤ m) && decide (m ≤ 12)) then .ok (.err MONTH_ERR)
  else if decide (y < 1900) || decide (y > 2100) then .ok (.err YEAR_ERR)
  else
    match getTx (userIdVal user_id) (monthStart y m) (monthEnd y m) with
    | .error e => .error e
    | .ok ts => .ok (.okSummary (summaryOfTxns ts))

/-- FinancialFunctions.get_monthly_summary with its try/except. -/
def get_monthly_summaryRun (getTx : Int → String → String → Except String (List Txn))
    (user_id : Option Int) (month year : Option Int) (nowMonth nowYear : Int) :
    Envelope :=
  match get_monthly_summaryE getTx user_id month year nowMonth nowYear with
  | .ok e => e
  | .error e => .err e

/-- The normally behaving fetch: Database.get_transactions over the
store, with both bounds supplied (as get_monthly_summary does). -/
def getTxOf (db : List Txn) : Int → String → String → Except String (List Txn) :=
  fun u s e => .ok (get_transactions db u (some s) (some e))

def CODES_ERR : String := "Both currency codes are required"

/-- Try-block body of FinancialFunctions.get_exchange_rate: user check,
non-empty code check, then the ExchangeRateAPI call. The api returns a
non-empty dict in all non-raising cases, so the if not rate guard never
fires; on the failure dict, the rate["rate"] subscript raises
KeyError("rate"), whose str() is the quoted key. -/
def get_exchange_rateE (rateApi : String → String → Except String ApiResult)
    (user_id : Option Int) (from_currency to_currency : String) :
    Except String Envelope :=
  if userIdFalsy user_id then .ok (.err USER_ERR) else
  if from_currency == "" || to_currency == "" then .ok (.err CODES_ERR) else
  match rateApi from_currency to_currency with
  | .error e => .error e
  | .ok (.fail _) => .error "\x27rate\x27"
  | .ok (.okR r d _ _) => .ok (.okRate from_currency to_currency r d)

/-- FinancialFunctions.get_exchange_rate with its try/except. -/
def get_exchange_rateRun (rateApi : String → String → Except String ApiResult)
    (user_id : Option Int) (from_currency to_currency : String) : Envelope :=
  match get_exchange_rateE rateApi user_id from_currency to_currency with
  | .ok e => e
  | .error e => .err e

example :
    (log_expenseRun addTxOk (some 1) (.num 50) (.vStr "food") none "2024-05-15" []).2
      = [{ user_id := 1, amount := 50, category := "food",
           date := "2024-05-15", ttype := "expense" }] := by decide

example :
    isSuccess (log_expenseRun addTxOk (some 1) (.num 50) (.vStr "food") none
      "2024-05-15" []).1 = true := by decide

example :
    log_expenseRun addTxOk (some 1) (.num (-3)) (.vStr "food") none "2024-05-15" []
      = (.err AMOUNT_ERR, []) := by decide

/-! ### Intent dispatcher (gemini_agent.py) -/

/-- One conversation turn of the bounded chat history. -/
structure Turn where
  role : String
  content : String
deriving DecidableEq, Repr

/-- The deque capacity: deque(maxlen=5). -/
def HISTORY_CAP : Nat := 5

/-- Appending to a deque with maxlen: beyond the capacity, elements are
discarded from the opposite end, so only the latest HISTORY_CAP entries
remain. -/
def dequeAppend (h : List Turn) (t : Turn) : List Turn :=
  let h2 := h ++ [t]
  if HISTORY_CAP < h2.length then h2.drop (h2.length - HISTORY_CAP) else h2

/-- Python dict assignment d[k] = v on an association list: replace the
value at an existing key, else append the new binding. -/
def dictSet : List (String × PVal) → String → PVal → List (String × PVal)
  | [], k, v => [(k, v)]
  | kv :: rest, k, v =>
    if kv.1 == k then (k, v) :: rest else kv :: dictSet rest k v

/-- Truthiness of an argument value present in the payload (the check
"year" not in args or not args["year"]). -/
def argTruthy : Option PVal → Bool
  | none => false
  | some (.vInt n) => !(n == 0)
  | some (.vNum q) => !(q == 0)
  | some (.vStr s) => !(s == "")

/-- Argument normalization of process_message lines 223-232: inject the
session user id (overwriting whatever the model put there), then, for
get_monthly_summary only, fill a missing or falsy year and month with
the current ones. -/
def normalizeArgs (fname : String) (args0 : List (String × PVal)) (u : Int)
    (nowMonth nowYear : Int) : List (String × PVal) :=
  let a1 := dictSet args0 "user_id" (.vInt u)
  if fname == "get_monthly_summary" then
    let a2 := if argTruthy (a1.lookup "year") then a1 else dictSet a1 "year" (.vInt nowYear)
    let a3 := if argTruthy (a2.lookup "month") then a2 else dictSet a2 "month" (.vInt nowMonth)
    a3
  else a1

/-- The user_id argument as received by an operation via **args. -/
def userIdOf : Option PVal → Option Int
  | some (.vInt n) => some n
  | _ => none

/-- An int-typed argument (month, year: the catalog declares them
integer, so the model delivers ints). -/
def intValOf : Option PVal → Option Int
  | some (.vInt n) => some n
  | _ => none

/-- A string-typed argument (date and the currency codes: declared
string in the catalog). -/
def strValOf : Option PVal → Option String
  | some (.vStr s) => some s
  | _ => none

/-- Dispatch of process_message lines 234-247: exact name match against
the four operations, none for an unknown name. Binding **args to the
target signature raises TypeError (the Except error) when a required
argument is missing or an unexpected keyword is present; that exception
is caught only by the top-level handler of process_message. -/
def callFinancial (rateApi : String → String → Except String ApiResult)
    (fname : String) (args : List (String × PVal)) (today : String)
    (nowMonth nowYear : Int) (db : List Txn) :
    Except String (Option (Envelope × List Txn)) :=
  if fname == "log_expense" then
    if !(args.all (fun kv => ["amount", "category", "date", "user_id"].contains kv.1)) then
      .error "TypeError: unexpected keyword argument"
    else
      match args.lookup "amount", args.lookup "category" with
      | some a, some c =>
        .ok (some (log_expenseRun addTxOk (userIdOf (args.lookup "user_id"))
              (toPyNum a) c (strValOf (args.lookup "date")) today db))
      | _, _ => .error "TypeError: missing required argument"
  else if fname == "log_income" then
    if !(args.all (fun kv => ["amount", "source", "date", "user_id"].contains kv.1)) then
      .error "TypeError: unexpected keyword argument"
    else
      match args.lookup "amount", args.lookup "source" with
      | some a, some c =>
        .ok (some (log_incomeRun addTxOk (userIdOf (args.lookup "user_id"))
              (toPyNum a) c (strValOf (args.lookup "date")) today db))
      | _, _ => .error "TypeError: missing required argument"
  else if fname == "get_monthly_summary" then
    if !(args.all (fun kv => ["month", "year", "user_id"].contains kv.1)) then
      .error "TypeError: unexpected keyword argument"
    else
      .ok (some (get_monthly_summaryRun (getTxOf db) (userIdOf (args.lookup "user_id"))
            (intValOf (args.lookup "month")) (intValOf (args.lookup "year"))
            nowMonth nowYear, db))
  else if fname == "get_exchange_rate" then
    if !(args.all (fun kv => ["from_currency", "to_currency", "user_id"].contains kv.1)) then
      .error "TypeError: unexpected keyword argument"
    else
      match strValOf (args.lookup "from_currency"), strValOf (args.lookup "to_currency") with
      | some f, some t =>
        .ok (some (get_exchange_rateRun rateApi (userIdOf (args.lookup "user_id")) f t, db))
      | _, _ => .error "TypeError: missing required argument"
  else
    .ok none

/-- What the external model returned for one turn: a degenerate response
(no candidates, no content, no parts), one function call part, or one
text part. -/
inductive ModelResp where
  | noCandidates
  | noContent
  | noParts
  | fnCall (name : String) (args : List (String × PVal))
  | text (s : String)
deriving DecidableEq, Repr

/-- The dispatcher state: the bounded chat history plus the transaction
store its FinancialFunctions instance writes through. -/
structure AgentState where
  history : List Turn
  db : List Txn
deriving DecidableEq, Repr

def LOGIN_REPLY : String := "Please log in to use this feature."
def EMPTY_REPLY : String := "I received an empty response from the model. Please try again."
def NO_CONTENT_REPLY : String := "I couldn\x27t process the model\x27s response. Please try again."
def NO_PARTS_REPLY : String := "The response format was unexpected. Please try again."
def UNKNOWN_FN_REPLY : String := "I\x27m sorry, I don\x27t know how to handle that function."
def APOLOGY_REPLY : String :=
  "I apologize, but I encountered an error processing your message. Please try again."

/-- The natural-language rendering of a successful envelope (lines
250-258; the operation that produced the envelope determines its shape). -/
def renderSuccess : Envelope → String
  | .okMsg m => "Successfully logged the transaction. " ++ m
  | .okSummary s =>
      "Here\x27s your monthly summary:\nIncome: $" ++ fmtFixed 2 s.income
        ++ "\nExpenses: $" ++ fmtFixed 2 s.expenses
        ++ "\nBalance: $" ++ fmtFixed 2 s.balance
        ++ "\nTotal transactions: " ++ toString s.transactions
  | .okRate f t r d =>
      "The exchange rate from " ++ f ++ " to " ++ t ++ " on " ++ d ++ " is "
        ++ fmtFixed 4 r
  | .err _ => ""

/-- Try-block body of GeminiAgent.process_message for one inbound
message: reject a falsy user id before touching the history, append the
user turn, then interpret the model response (a parameter: the external
model is a black box). On a function call: normalize arguments, dispatch,
and either render the error envelope and return, or render success and
append the assistant turn. On a text part: the text is the reply. The
early error returns skip the assistant-turn append. -/
def process_messageE (rateApi : String → String → Except String ApiResult)
    (resp : ModelResp) (message : String) (user_id : Option Int)
    (today : String) (nowMonth nowYear : Int) (st : AgentState) :
    Except String (String × AgentState) :=
  if userIdFalsy user_id then .ok (LOGIN_REPLY, st) else
  let h1 := dequeAppend st.history { role := "user", content := message }
  match resp with
  | .noCandidates => .ok (EMPTY_REPLY, { st with history := h1 })
  | .noContent => .ok (NO_CONTENT_REPLY, { st with history := h1 })
  | .noParts => .ok (NO_PARTS_REPLY, { st with history := h1 })
  | .text s =>
    .ok (s, { history := dequeAppend h1 { role := "assistant", content := s },
              db := st.db })
  | .fnCall fname rawArgs =>
    let args := normalizeArgs fname rawArgs (userIdVal user_id) nowMonth nowYear
    match callFinancial rateApi fname args today nowMonth nowYear st.db with
    | .error e => .error e
    | .ok none => .ok (UNKNOWN_FN_REPLY, { st with history := h1 })
    | .ok (some (env, db2)) =>
      match env with
      | .err e =>
        .ok ("I encountered an error: " ++ e, { history := h1, db := db2 })
      | e =>
        let rt := renderSuccess e
        .ok (rt, { history := dequeAppend h1 { role := "assistant", content := rt },
                   db := db2 })

/-- GeminiAgent.process_message with its top-level try/except: any
exception becomes the apology reply. The only raising points sit after
the user-turn append and before any store write, and Python keeps the
mutations made before the exception, so the handler state retains the
appended user turn and the unchanged store. -/
def process_message (rateApi : String → String → Except String ApiResult)
    (resp : ModelResp) (message : String) (user_id : Option Int)
    (today : String) (nowMonth nowYear : Int) (st : AgentState) :
    String × AgentState :=
  match process_messageE rateApi resp message user_id today nowMonth nowYear st with
  | .ok r => r
  | .error _ =>
    (APOLOGY_REPLY,
     { st with history :=
        if userIdFalsy user_id then st.history
        else dequeAppend st.history { role := "user", content := message } })

/-! ### Shared helper lemmas -/

/-- The effective date of a log operation is valid whenever today is a
valid date and the supplied date, if any, is one. -/
lemma effDate_valid (dateArg : Option String) (today : String)
    (htoday : (parseYMD today).isSome = true)
    (hdate : ∀ s, dateArg = some s → (parseYMD s).isSome = true) :
    (parseYMD (effDate dateArg today)).isSome = true := by
  cases dateArg with
  | none => simpa [effDate] using htoday
  | some s =>
    have hs := hdate s rfl
    by_cases hse : s = ""
    · subst hse
      exact absurd hs (by decide)
    · simpa [effDate, hse] using hs

/-- An isSome option is not isNone. -/
lemma isNone_false_of_isSome {α : Type} {o : Option α}
    (h : o.isSome = true) : o.isNone = false := by
  cases o with
  | none => simp at h
  | some v => rfl

lemma find_unique {α : Type} (p : α → Bool) (l : List α) (a : α)
    (ha : a ∈ l) (hpa : p a = true) (huniq : ∀ b ∈ l, p b = true → b = a) :
    l.find? p = some a := by
  induction l with
  | nil => cases ha
  | cons b rest ih =>
    by_cases hpb : p b = true
    · have hb : b = a := huniq b (List.mem_cons_self b rest) hpb
      subst hb
      simp [List.find?, hpb]
    · have hba : ¬ b = a := fun h => hpb (h ▸ hpa)
      have ha2 : a ∈ rest := by
        cases List.mem_cons.mp ha with
        | inl h => exact absurd h.symm hba
        | inr h => exact h
      have := ih ha2 (fun c hc hpc => huniq c (List.mem_cons_of_mem b hc) hpc)
      simp [List.find?, hpb, this]

/-! ### Claim theorems -/

/-- C1: for every call to log_expense or log_income with a truthy
user_id, a numeric strictly positive amount, a non-empty string
category/source, and a date that is absent (defaulting to today, the
current calendar date) or parses as YYYY-MM-DD, exactly one new
transaction row is appended to the store and a success envelope is
returned; for amount less than or equal to zero, and for a non-numeric
amount, the store is unchanged and the validation-error envelope is
returned. -/
theorem c1_log_persistence
    (u : Int) (hu : ¬ u = 0)
    (cat : String) (hcat : ¬ cat = "")
    (dateArg : Option String) (today : String)
    (htoday : (parseYMD today).isSome = true)
    (hdate : ∀ s, dateArg = some s → (parseYMD s).isSome = true)
    (db : List Txn) :
    (∀ q : ℚ, 0 < q →
      log_expenseRun addTxOk (some u) (.num q) (.vStr cat) dateArg today db
        = (.okMsg (expenseMessage q cat (effDate dateArg today)),
           db ++ [{ user_id := u, amount := q, category := cat,
                    date := effDate dateArg today, ttype := "expense" }])
      ∧ log_incomeRun addTxOk (some u) (.num q) (.vStr cat) dateArg today db
        = (.okMsg (incomeMessage q cat (effDate dateArg today)),
           db ++ [{ user_id := u, amount := q, category := cat,
                    date := effDate dateArg today, ttype := "income" }]))
    ∧ (∀ q : ℚ, q ≤ 0 →
      log_expenseRun addTxOk (some u) (.num q) (.vStr cat) dateArg today db
        = (.err AMOUNT_ERR, db)
      ∧ log_incomeRun addTxOk (some u) (.num q) (.vStr cat) dateArg today db
        = (.err AMOUNT_ERR, db))
    ∧ (∀ s : String,
      log_expenseRun addTxOk (some u) (.nonNum s) (.vStr cat) dateArg today db
        = (.err AMOUNT_ERR, db)
      ∧ log_incomeRun addTxOk (some u) (.nonNum s) (.vStr cat) dateArg today db
        = (.err AMOUNT_ERR, db)) := by
  have hub : (u == 0) = false := by simp [hu]
  have hcatb : (cat == "") = false := by simp [hcat]
  have hn : (parseYMD (effDate dateArg today)).isNone = false :=
    isNone_false_of_isSome (effDate_valid dateArg today htoday hdate)
  refine ⟨fun q hq => ⟨?_, ?_⟩, fun q hq => ⟨?_, ?_⟩, fun s => ⟨?_, ?_⟩⟩
  · simp [log_expenseRun, log_expenseE, userIdFalsy, hub, not_le.mpr hq,
      categoryStr, hcatb, hn, addTxOk, add_transaction, userIdVal]
  · simp [log_incomeRun, log_incomeE, userIdFalsy, hub, not_le.mpr hq,
      categoryStr, hcatb, hn, addTxOk, add_transaction, userIdVal]
  · simp [log_expenseRun, log_expenseE, userIdFalsy, hub, hq]
  · simp [log_incomeRun, log_incomeE, userIdFalsy, hub, hq]
  · simp [log_expenseRun, log_expenseE, userIdFalsy, hub]
  · simp [log_incomeRun, log_incomeE, userIdFalsy, hub]

/-- Witness for C1 at user 1, category food, amount 50 (success) and
amount -3 (validation failure), date absent, today 2024-05-15, empty
store. -/
theorem c1_log_persistence_witness :
    (¬ (1 : Int) = 0) ∧ (¬ "food" = "") ∧ (parseYMD "2024-05-15").isSome = true
    ∧ (0 : ℚ) < 50 ∧ (-3 : ℚ) ≤ 0
    ∧ log_expenseRun addTxOk (some 1) (.num 50) (.vStr "food") none "2024-05-15" []
        = (.okMsg (expenseMessage 50 "food" (effDate none "2024-05-15")),
           [] ++ [{ user_id := 1, amount := 50, category := "food",
                    date := effDate none "2024-05-15", ttype := "expense" }])
    ∧ log_incomeRun addTxOk (some 1) (.num (-3)) (.vStr "food") none "2024-05-15" []
        = (.err AMOUNT_ERR, []) := by
  refine ⟨by decide, by decide, by decide, by decide, by decide, ?_, ?_⟩
  · exact ((c1_log_persistence 1 (by decide) "food" (by decide) none "2024-05-15"
      (by decide) (fun s h => by cases h) []).1 50 (by decide)).1
  · exact ((c1_log_persistence 1 (by decide) "food" (by decide) none "2024-05-15"
      (by decide) (fun s h => by cases h) []).2.1 (-3) (by decide)).2

/-- C2: the claim says the monthly aggregation covers the half-open
interval, excluding the first day of the following month. The code path
actually used (functions.get_monthly_summary through
Database.get_transactions) filters date <= end_date inclusively: with a
single expense dated 2024-07-01 in the store, the June 2024 summary
counts it (transactions = 1), while the strict-bound aggregate of
Database.get_monthly_summary in the same module (the half-open query the
spec describes) does not (transactions = 0). -/
theorem c2_month_boundary_inclusive :
    get_monthly_summaryRun
        (getTxOf [{ user_id := 1, amount := 5, category := "food",
                    date := "2024-07-01", ttype := "expense" }])
        (some 1) (some 6) (some 2024) 1 2024
      = .okSummary (summaryOfTxns
          [{ user_id := 1, amount := 5, category := "food",
             date := "2024-07-01", ttype := "expense" }])
    ∧ (summaryOfTxns [{ user_id := 1, amount := 5, category := "food",
                        date := "2024-07-01", ttype := "expense" }]).transactions = 1
    ∧ (dbMonthlySummary [{ user_id := 1, amount := 5, category := "food",
                           date := "2024-07-01", ttype := "expense" }] 1 2024 6).transactions
        = 0 :=
  ⟨rfl, rfl, rfl⟩

/-- C3 counterexample: with month = 0 supplied (out of [1,12] per the
claim), get_monthly_summary does not return a validation error; 0 is
falsy, so the current month (here 5) is silently substituted and a
summary is computed successfully. -/
theorem c3_month_zero_not_rejected :
    get_monthly_summaryRun (getTxOf []) (some 1) (some 0) (some 2024) 5 2024
      = .okSummary (summaryOfTxns [])
    ∧ isSuccess (get_monthly_summaryRun (getTxOf []) (some 1) (some 0) (some 2024) 5 2024)
        = true :=
  ⟨rfl, rfl⟩

/-- C3 amended: for a truthy user_id, a truthy month outside [1,12]
(such as 13) yields the month validation error and no summary (no fetch
occurs: the conclusion holds for every store behavior), and a truthy
in-range month with a truthy year outside [1900,2100] (such as 1899 or
2101) yields the year validation error; but a falsy month = 0 is treated
as absent and silently replaced by the current month, after which the
summary is computed. -/
theorem c3_month_year_validation
    (u : Int) (hu : ¬ u = 0) (m y nowM nowY : Int)
    (year : Option Int)
    (getTx : Int → String → String → Except String (List Txn)) :
    (¬ m = 0 → (m < 1 ∨ 12 < m) →
      get_monthly_summaryRun getTx (some u) (some m) year nowM nowY = .err MONTH_ERR)
    ∧ (1 ≤ m → m ≤ 12 → ¬ y = 0 → (y < 1900 ∨ 2100 < y) →
      get_monthly_summaryRun getTx (some u) (some m) (some y) nowM nowY = .err YEAR_ERR)
    ∧ (∀ db : List Txn, 1 ≤ nowM → nowM ≤ 12 → 1900 ≤ y → y ≤ 2100 →
      get_monthly_summaryRun (getTxOf db) (some u) (some 0) (some y) nowM nowY
        = .okSummary (summaryOfTxns
            (get_transactions db u (some (monthStart y nowM)) (some (monthEnd y nowM))))) := by
  have hub : (u == 0) = false := by simp [hu]
  refine ⟨fun hm hrange => ?_, fun hm1 hm2 hy hyrange => ?_, fun db h1 h2 h3 h4 => ?_⟩
  · have hfd1 : (fillDefaults (some m) year nowM nowY).1 = m := by
      unfold fillDefaults
      split
      · simp [orDefault, hm]
      · simp
    have hc : (decide (1 ≤ m) && decide (m ≤ 12)) = false := by
      rcases hrange with h | h <;> simp <;> omega
    simp [get_monthly_summaryRun, get_monthly_summaryE, userIdFalsy, hub, hfd1, hc]
  · have hfd : fillDefaults (some m) (some y) nowM nowY = (m, y) := by
      unfold fillDefaults
      split
      · simp [orDefault, show ¬ m = 0 by omega, hy]
      · simp
    have hc1 : (decide (1 ≤ m) && decide (m ≤ 12)) = true := by simp [hm1, hm2]
    have hc2 : (decide (y < 1900) || decide (y > 2100)) = true := by
      rcases hyrange with h | h <;> simp <;> omega
    simp [get_monthly_summaryRun, get_monthly_summaryE, userIdFalsy, hub, hfd, hc1, hc2]
  · have hfd : fillDefaults (some 0) (some y) nowM nowY = (nowM, y) := by
      simp [fillDefaults, intFalsy, orDefault, show ¬ y = 0 by omega]
    have hc1 : (decide (1 ≤ nowM) && decide (nowM ≤ 12)) = true := by simp [h1, h2]
    have hc2 : (decide (y < 1900) || decide (y > 2100)) = false := by
      simp
      omega
    simp [get_monthly_summaryRun, get_monthly_summaryE, userIdFalsy, hub, hfd,
      hc1, hc2, getTxOf, userIdVal]

/-- Witness for C3 amended at user 1: month 13 rejected, year 1899
rejected (month 6), and month 0 with year 2024 silently summarized for
current month 5 over the empty store. -/
theorem c3_month_year_validation_witness :
    (¬ (1 : Int) = 0) ∧ (¬ (13 : Int) = 0) ∧ ((13 : Int) < 1 ∨ (12 : Int) < 13)
    ∧ ((1899 : Int) < 1900 ∨ (2100 : Int) < 1899) ∧ (¬ (1899 : Int) = 0)
    ∧ get_monthly_summaryRun (getTxOf []) (some 1) (some 13) (some 2024) 5 2024
        = .err MONTH_ERR
    ∧ get_monthly_summaryRun (getTxOf []) (some 1) (some 6) (some 1899) 5 2024
        = .err YEAR_ERR
    ∧ get_monthly_summaryRun (getTxOf []) (some 1) (some 0) (some 2024) 5 2024
        = .okSummary (summaryOfTxns
            (get_transactions [] 1 (some (monthStart 2024 5)) (some (monthEnd 2024 5)))) := by
  refine ⟨by decide, by decide, by decide, by decide, by decide, ?_, ?_, ?_⟩
  · exact (c3_month_year_validation 1 (by decide) 13 2024 5 2024 (some 2024)
      (getTxOf [])).1 (by decide) (by decide)
  · exact (c3_month_year_validation 1 (by decide) 6 1899 5 2024 (some 1899)
      (getTxOf [])).2.1 (by decide) (by decide) (by decide) (by decide)
  · exact (c3_month_year_validation 1 (by decide) 6 2024 5 2024 (some 2024)
      (getTxOf [])).2.2 [] (by decide) (by decide) (by decide) (by decide)

/-- Every envelope value is one of the two shapes: a success payload or
an error message. -/
lemma envelope_two_shape (e : Envelope) : isSuccess e = true ∨ ∃ m, e = .err m := by
  cases e with
  | err m => exact Or.inr ⟨m, rfl⟩
  | okMsg m => exact Or.inl rfl
  | okSummary s => exact Or.inl rfl
  | okRate f t r d => exact Or.inl rfl

/-- With a store insert that always raises, log_expense still returns a
failure envelope and the store is unchanged. -/
lemma log_expenseRun_store_fault (ex : String) (u : Option Int) (amount : PyNum)
    (category : PVal) (dateArg : Option String) (today : String) (db : List Txn) :
    ∃ m, log_expenseRun (fun _ _ => .error ex) u amount category dateArg today db
      = (.err m, db) := by
  have hE : (∃ m, log_expenseE (fun _ _ => Except.error ex) u amount category dateArg today db
        = .ok (.err m, db))
      ∨ log_expenseE (fun _ _ => Except.error ex) u amount category dateArg today db
        = .error ex := by
    unfold log_expenseE
    dsimp only
    repeat' split
    all_goals first | exact Or.inl ⟨_, rfl⟩ | exact Or.inr rfl
  unfold log_expenseRun
  rcases hE with ⟨m, hm⟩ | hm <;> rw [hm]
  · exact ⟨m, rfl⟩
  · exact ⟨ex, rfl⟩

/-- With a store insert that always raises, log_income still returns a
failure envelope and the store is unchanged. -/
lemma log_incomeRun_store_fault (ex : String) (u : Option Int) (amount : PyNum)
    (source : PVal) (dateArg : Option String) (today : String) (db : List Txn) :
    ∃ m, log_incomeRun (fun _ _ => .error ex) u amount source dateArg today db
      = (.err m, db) := by
  have hE : (∃ m, log_incomeE (fun _ _ => Except.error ex) u amount source dateArg today db
        = .ok (.err m, db))
      ∨ log_incomeE (fun _ _ => Except.error ex) u amount source dateArg today db
        = .error ex := by
    unfold log_incomeE
    dsimp only
    repeat' split
    all_goals first | exact Or.inl ⟨_, rfl⟩ | exact Or.inr rfl
  unfold log_incomeRun
  rcases hE with ⟨m, hm⟩ | hm <;> rw [hm]
  · exact ⟨m, rfl⟩
  · exact ⟨ex, rfl⟩

/-- With a fetch that always raises, get_monthly_summary still returns a
failure envelope. -/
lemma get_monthly_summaryRun_fault (ex : String) (u : Option Int)
    (month year : Option Int) (nowM nowY : Int) :
    ∃ m, get_monthly_summaryRun (fun _ _ _ => .error ex) u month year nowM nowY
      = .err m := by
  have hE : (∃ m, get_monthly_summaryE (fun _ _ _ => Except.error ex) u month year nowM nowY
        = .ok (.err m))
      ∨ get_monthly_summaryE (fun _ _ _ => Except.error ex) u month year nowM nowY
        = .error ex := by
    unfold get_monthly_summaryE
    dsimp only
    repeat' split
    all_goals first | exact Or.inl ⟨_, rfl⟩ | exact Or.inr rfl
  unfold get_monthly_summaryRun
  rcases hE with ⟨m, hm⟩ | hm <;> rw [hm]
  · exact ⟨m, rfl⟩
  · exact ⟨ex, rfl⟩

/-- With a rate client that always raises, get_exchange_rate still
returns a failure envelope. -/
lemma get_exchange_rateRun_fault (ex : String) (u : Option Int) (fromC toC : String) :
    ∃ m, get_exchange_rateRun (fun _ _ => .error ex) u fromC toC = .err m := by
  have hE : (∃ m, get_exchange_rateE (fun _ _ => Except.error ex) u fromC toC = .ok (.err m))
      ∨ get_exchange_rateE (fun _ _ => Except.error ex) u fromC toC = .error ex := by
    unfold get_exchange_rateE
    dsimp only
    repeat' split
    all_goals first | exact Or.inl ⟨_, rfl⟩ | exact Or.inr rfl
  unfold get_exchange_rateRun
  rcases hE with ⟨m, hm⟩ | hm <;> rw [hm]
  · exact ⟨m, rfl⟩
  · exact ⟨ex, rfl⟩

/-- C4: each of the four financial operations, on every input and under
every behavior of its store or rate collaborator (including one that
always raises an arbitrary exception), returns an envelope that is
either a success shape or the failure shape with an error message; no
exception escapes the operation, and a store exception during a log
operation leaves the store as it was. -/
theorem c4_uniform_envelope
    (addTx : List Txn → Txn → Except String (List Txn))
    (getTx : Int → String → String → Except String (List Txn))
    (rateApi : String → String → Except String ApiResult)
    (u : Option Int) (amount : PyNum) (category : PVal)
    (dateArg : Option String) (today : String) (month year : Option Int)
    (nowM nowY : Int) (fromC toC : String) (db : List Txn) :
    (isSuccess (log_expenseRun addTx u amount category dateArg today db).1 = true
      ∨ ∃ m, (log_expenseRun addTx u amount category dateArg today db).1 = .err m)
    ∧ (isSuccess (log_incomeRun addTx u amount category dateArg today db).1 = true
      ∨ ∃ m, (log_incomeRun addTx u amount category dateArg today db).1 = .err m)
    ∧ (isSuccess (get_monthly_summaryRun getTx u month year nowM nowY) = true
      ∨ ∃ m, get_monthly_summaryRun getTx u month year nowM nowY = .err m)
    ∧ (isSuccess (get_exchange_rateRun rateApi u fromC toC) = true
      ∨ ∃ m, get_exchange_rateRun rateApi u fromC toC = .err m)
    ∧ (∀ ex, ∃ m, log_expenseRun (fun _ _ => .error ex) u amount category dateArg today db
        = (.err m, db))
    ∧ (∀ ex, ∃ m, log_incomeRun (fun _ _ => .error ex) u amount category dateArg today db
        = (.err m, db))
    ∧ (∀ ex, ∃ m, get_monthly_summaryRun (fun _ _ _ => .error ex) u month year nowM nowY
        = .err m)
    ∧ (∀ ex, ∃ m, get_exchange_rateRun (fun _ _ => .error ex) u fromC toC = .err m) :=
  ⟨envelope_two_shape _, envelope_two_shape _, envelope_two_shape _, envelope_two_shape _,
   fun ex => log_expenseRun_store_fault ex u amount category dateArg today db,
   fun ex => log_incomeRun_store_fault ex u amount category dateArg today db,
   fun ex => get_monthly_summaryRun_fault ex u month year nowM nowY,
   fun ex => get_exchange_rateRun_fault ex u fromC toC⟩

/-- Dict assignment stores the value under the key. -/
lemma dictSet_lookup_self (l : List (String × PVal)) (k : String) (v : PVal) :
    (dictSet l k v).lookup k = some v := by
  induction l with
  | nil => simp [dictSet, List.lookup]
  | cons kv rest ih =>
    by_cases h : kv.1 = k
    · have hb : (kv.1 == k) = true := by simp [h]
      simp [dictSet, hb, List.lookup]
    · have hb : (kv.1 == k) = false := by simp [h]
      have hb2 : (k == kv.1) = false := by
        simp [show ¬ k = kv.1 from fun hh => h hh.symm]
      simp [dictSet, hb, List.lookup, hb2, ih]

/-- Dict assignment leaves every other key unchanged. -/
lemma dictSet_lookup_other (l : List (String × PVal)) (k k2 : String) (v : PVal)
    (h : ¬ k2 = k) :
    (dictSet l k v).lookup k2 = l.lookup k2 := by
  have hb2 : (k2 == k) = false := by simp [h]
  induction l with
  | nil => simp [dictSet, List.lookup, hb2]
  | cons kv rest ih =>
    by_cases hk : kv.1 = k
    · have hb : (kv.1 == k) = true := by simp [hk]
      have hb3 : (k2 == kv.1) = false := by
        simp [show ¬ k2 = kv.1 from fun hh => h (hh.trans hk)]
      simp [dictSet, hb, List.lookup, hb2, hb3]
    · have hb : (kv.1 == k) = false := by simp [hk]
      simp [dictSet, hb, List.lookup, ih]

/-- C5: after argument normalization, the user_id entry of the argument
payload handed to the dispatched operation is exactly the session
identity, whatever the model put into its argument payload (any prior
user_id binding is overwritten, and the month and year filling does not
touch it). -/
theorem c5_identity_injection (fname : String) (args : List (String × PVal))
    (u nowM nowY : Int) :
    (normalizeArgs fname args u nowM nowY).lookup "user_id" = some (.vInt u)
    ∧ userIdOf ((normalizeArgs fname args u nowM nowY).lookup "user_id") = some u := by
  have hself : ∀ l : List (String × PVal), (dictSet l "user_id" (.vInt u)).lookup "user_id"
      = some (.vInt u) := fun l => dictSet_lookup_self l _ _
  have hmain : (normalizeArgs fname args u nowM nowY).lookup "user_id" = some (.vInt u) := by
    unfold normalizeArgs
    split
    · dsimp only
      split
      · split
        · exact hself args
        · rw [dictSet_lookup_other _ _ _ _ (by decide)]
          exact hself args
      · split
        · rw [dictSet_lookup_other _ _ _ _ (by decide)]
          exact hself args
        · rw [dictSet_lookup_other _ _ _ _ (by decide),
            dictSet_lookup_other _ _ _ _ (by decide)]
          exact hself args
    · exact hself args
  exact ⟨hmain, by rw [hmain]; rfl⟩

/-- The history after any sequence of appends into the empty bounded
deque is the suffix of the last HISTORY_CAP entries. -/
lemma foldl_dequeAppend (ts : List Turn) :
    List.foldl dequeAppend [] ts = ts.drop (ts.length - HISTORY_CAP) := by
  have hcap : HISTORY_CAP = 5 := rfl
  induction ts using List.reverseRecOn with
  | nil => rfl
  | append_singleton ts t ih =>
    rw [List.foldl_append, List.foldl_cons, List.foldl_nil, ih]
    simp only [dequeAppend]
    have hdl : (ts.drop (ts.length - HISTORY_CAP)).length
        = ts.length - (ts.length - HISTORY_CAP) := List.length_drop _ _
    by_cases hlt : HISTORY_CAP < ts.length + 1
    · have hc : HISTORY_CAP < (ts.drop (ts.length - HISTORY_CAP) ++ [t]).length := by
        simp only [List.length_append, List.length_cons, List.length_nil, hdl]
        omega
      rw [if_pos hc]
      have hd1 : (ts.drop (ts.length - HISTORY_CAP) ++ [t]).length - HISTORY_CAP = 1 := by
        simp only [List.length_append, List.length_cons, List.length_nil, hdl]
        omega
      rw [hd1,
        List.drop_append_of_le_length (by rw [hdl]; omega : 1 ≤ (ts.drop (ts.length - HISTORY_CAP)).length),
        List.drop_drop,
        List.drop_append_of_le_length
          (by simp only [List.length_append, List.length_cons, List.length_nil]; omega
            : (ts ++ [t]).length - HISTORY_CAP ≤ ts.length)]
      congr 1
      congr 1
      simp only [List.length_append, List.length_cons, List.length_nil]
      omega
    · have hc : ¬ HISTORY_CAP < (ts.drop (ts.length - HISTORY_CAP) ++ [t]).length := by
        simp only [List.length_append, List.length_cons, List.length_nil, hdl]
        omega
      rw [if_neg hc]
      have hd0 : ts.length - HISTORY_CAP = 0 := by omega
      have hd0b : (ts ++ [t]).length - HISTORY_CAP = 0 := by
        simp only [List.length_append, List.length_cons, List.length_nil]
        omega
      rw [hd0, hd0b, List.drop_zero, List.drop_zero]

/-- C6: the dispatcher history never holds more than five turns: any
sequence of appends into the empty deque leaves exactly the latest five
entries (the suffix of the appended sequence), so the bound holds and,
at capacity, one more append evicts exactly the oldest entry. -/
theorem c6_bounded_history :
    (∀ ts : List Turn, List.foldl dequeAppend [] ts = ts.drop (ts.length - HISTORY_CAP))
    ∧ (∀ ts : List Turn, (List.foldl dequeAppend [] ts).length ≤ HISTORY_CAP)
    ∧ (∀ (h : List Turn) (t : Turn), h.length = HISTORY_CAP →
        dequeAppend h t = h.drop 1 ++ [t]) := by
  have hcap : HISTORY_CAP = 5 := rfl
  refine ⟨foldl_dequeAppend, fun ts => ?_, fun h t hlen => ?_⟩
  · rw [foldl_dequeAppend, List.length_drop]
    omega
  · simp only [dequeAppend]
    have hc : HISTORY_CAP < (h ++ [t]).length := by
      simp only [List.length_append, List.length_cons, List.length_nil, hlen]
      omega
    rw [if_pos hc]
    have h1 : (h ++ [t]).length - HISTORY_CAP = 1 := by
      simp only [List.length_append, List.length_cons, List.length_nil, hlen]
      omega
    rw [h1, List.drop_append_of_le_length (by rw [hlen]; omega : 1 ≤ h.length)]

/-- A six-turn conversation, for the C6 witness. -/
def sixTurns : List Turn :=
  [{ role := "user", content := "m1" }, { role := "assistant", content := "m2" },
   { role := "user", content := "m3" }, { role := "assistant", content := "m4" },
   { role := "user", content := "m5" }, { role := "assistant", content := "m6" }]

/-- The first five of the six turns, for the C6 witness. -/
def fiveTurns : List Turn :=
  [{ role := "user", content := "m1" }, { role := "assistant", content := "m2" },
   { role := "user", content := "m3" }, { role := "assistant", content := "m4" },
   { role := "user", content := "m5" }]

/-- Witness for C6: six appended turns leave exactly the last five, and
an append onto a five-turn history drops the first turn. -/
theorem c6_bounded_history_witness :
    List.foldl dequeAppend [] sixTurns = sixTurns.drop (sixTurns.length - HISTORY_CAP)
    ∧ fiveTurns.length = HISTORY_CAP
    ∧ dequeAppend fiveTurns { role := "assistant", content := "m6" }
      = fiveTurns.drop 1 ++ [{ role := "assistant", content := "m6" }] :=
  ⟨c6_bounded_history.1 sixTurns, by decide,
   c6_bounded_history.2.2 fiveTurns { role := "assistant", content := "m6" } (by decide)⟩

/-- C7 counterexample: a turn that completes with the fixed
unrecognized-operation reply does not append that reply to the history.
With an empty history, a logged-in user and a model call to an unknown
operation, the turn returns the fixed reply but the final history holds
only the user turn: no assistant turn with the rendered reply exists. -/
theorem c7_unknown_reply_not_appended :
    process_message (fun _ _ => Except.error "unreachable")
        (.fnCall "transfer_funds" []) "send money" (some 1) "2024-05-15" 5 2024
        { history := [], db := [] }
      = (UNKNOWN_FN_REPLY,
         { history := [{ role := "user", content := "send money" }], db := [] })
    ∧ ({ role := "assistant", content := UNKNOWN_FN_REPLY } : Turn)
        ∉ (process_message (fun _ _ => Except.error "unreachable")
            (.fnCall "transfer_funds" []) "send money" (some 1) "2024-05-15" 5 2024
            { history := [], db := [] }).2.history := by
  refine ⟨rfl, ?_⟩
  intro hmem
  simp only [process_message, process_messageE] at hmem
  revert hmem
  decide

/-- C7 amended: for a logged-in user, the rendered reply is appended to
the history as an assistant turn only on the free-text path and the
successful-operation path; the error rendering, the fixed
unrecognized-operation reply and the exception apology are returned with
the history holding only the appended user turn. -/
theorem c7_reply_append
    (rateApi : String → String → Except String ApiResult)
    (message : String) (u : Option Int) (today : String) (nowM nowY : Int)
    (st : AgentState) (hu : userIdFalsy u = false) :
    (∀ s, process_message rateApi (.text s) message u today nowM nowY st
      = (s, { history := dequeAppend (dequeAppend st.history { role := "user", content := message })
                           { role := "assistant", content := s },
              db := st.db }))
    ∧ (∀ fname args,
        callFinancial rateApi fname (normalizeArgs fname args (userIdVal u) nowM nowY)
          today nowM nowY st.db = .ok none →
        process_message rateApi (.fnCall fname args) message u today nowM nowY st
          = (UNKNOWN_FN_REPLY,
             { history := dequeAppend st.history { role := "user", content := message },
               db := st.db }))
    ∧ (∀ fname args e db2,
        callFinancial rateApi fname (normalizeArgs fname args (userIdVal u) nowM nowY)
          today nowM nowY st.db = .ok (some (.err e, db2)) →
        process_message rateApi (.fnCall fname args) message u today nowM nowY st
          = ("I encountered an error: " ++ e,
             { history := dequeAppend st.history { role := "user", content := message },
               db := db2 }))
    ∧ (∀ fname args env db2,
        callFinancial rateApi fname (normalizeArgs fname args (userIdVal u) nowM nowY)
          today nowM nowY st.db = .ok (some (env, db2)) → isSuccess env = true →
        process_message rateApi (.fnCall fname args) message u today nowM nowY st
          = (renderSuccess env,
             { history := dequeAppend (dequeAppend st.history { role := "user", content := message })
                            { role := "assistant", content := renderSuccess env },
               db := db2 }))
    ∧ (∀ fname args ex,
        callFinancial rateApi fname (normalizeArgs fname args (userIdVal u) nowM nowY)
          today nowM nowY st.db = .error ex →
        process_message rateApi (.fnCall fname args) message u today nowM nowY st
          = (APOLOGY_REPLY,
             { history := dequeAppend st.history { role := "user", content := message },
               db := st.db })) := by
  refine ⟨fun s => ?_, fun fname args hcall => ?_, fun fname args e db2 hcall => ?_,
    fun fname args env db2 hcall hsucc => ?_, fun fname args ex hcall => ?_⟩
  · simp [process_message, process_messageE, hu]
  · simp [process_message, process_messageE, hu, hcall]
  · simp [process_message, process_messageE, hu, hcall]
  · cases env with
    | err e => simp [isSuccess] at hsucc
    | okMsg m => simp [process_message, process_messageE, hu, hcall]
    | okSummary s => simp [process_message, process_messageE, hu, hcall]
    | okRate f t r d => simp [process_message, process_messageE, hu, hcall]
  · simp [process_message, process_messageE, hu, hcall]

/-- Witness for C7 amended: a free-text turn for user 1 appends the
reply as an assistant turn. -/
theorem c7_reply_append_witness :
    userIdFalsy (some 1) = false
    ∧ process_message (fun _ _ => Except.error "unreachable") (.text "hello") "hi"
        (some 1) "2024-05-15" 5 2024 { history := [], db := [] }
      = ("hello",
         { history := dequeAppend (dequeAppend [] { role := "user", content := "hi" })
                        { role := "assistant", content := "hello" },
           db := [] }) :=
  ⟨by decide,
   (c7_reply_append (fun _ _ => Except.error "unreachable") "hi" (some 1) "2024-05-15"
     5 2024 { history := [], db := [] } (by decide)).1 "hello"⟩

/-- C8: a credential issued by a successful authentication at time T
(a fresh token not held by anyone, stamped with last_login = T) resolves
to that user at any time t2 < T + 24h, fails to resolve at any time
t3 > T + 24h, and resolution writes nothing to the users table (only
authentication renews the window). The username lookup, the password
hash match, the token freshness and the primary-key uniqueness are the
database facts the scenario depends on. -/
theorem c8_session_window
    (hashFn : String → String) (users : List UserRec) (uname pw newTok : String)
    (T : Int) (u0 : UserRec)
    (hfind : users.find? (fun v => v.username == uname) = some u0)
    (hpw : hashFn pw = u0.password_hash)
    (hfresh : ∀ v ∈ users, ¬ v.session_token = some newTok)
    (hids : (users.map UserRec.id).Nodup) :
    (authenticate_user hashFn users uname pw newTok T).1 = some newTok
    ∧ ({ u0 with session_token := some newTok, last_login := some T } : UserRec)
        ∈ (authenticate_user hashFn users uname pw newTok T).2
    ∧ (∀ t2 : Int, t2 < T + WINDOW →
        get_user_by_token (authenticate_user hashFn users uname pw newTok T).2 newTok t2
          = .okUser u0.id u0.username u0.email)
    ∧ (∀ t3 : Int, T + WINDOW < t3 →
        get_user_by_token (authenticate_user hashFn users uname pw newTok T).2 newTok t3
          = .failure "Invalid or expired session token")
    ∧ (∀ t2 : Int,
        (get_user_by_tokenS (authenticate_user hashFn users uname pw newTok T).2 newTok t2).2
          = (authenticate_user hashFn users uname pw newTok T).2) := by
  have hpwb : (hashFn pw == u0.password_hash) = true := by simp [hpw]
  have hauth : authenticate_user hashFn users uname pw newTok T
      = (some newTok, users.map (fun v => if v.id == u0.id then
          { v with session_token := some newTok, last_login := some T } else v)) := by
    unfold authenticate_user
    rw [hfind]
    simp [hpwb]
  set f : UserRec → UserRec := fun v => if v.id == u0.id then
      { v with session_token := some newTok, last_login := some T } else v with hf
  have hu0mem : u0 ∈ users := List.mem_of_find?_eq_some hfind
  have hfu0 : f u0 = { u0 with session_token := some newTok, last_login := some T } := by
    simp [hf]
  have hinj := List.inj_on_of_nodup_map hids
  have huniq : ∀ tt : Int, ∀ b ∈ users.map f, tokenFresh newTok tt b = true → b = f u0 := by
    intro tt b hb hpred
    rcases List.mem_map.mp hb with ⟨v, hv, rfl⟩
    by_cases hid : (v.id == u0.id) = true
    · have hveq : v = u0 := hinj hv hu0mem (by simpa using hid)
      rw [hveq]
    · have hid2 : ¬ v.id = u0.id := by simpa using hid
      have hfv : f v = v := by simp [hf, hid2]
      rw [hfv] at hpred
      simp only [tokenFresh, Bool.and_eq_true] at hpred
      have htok : v.session_token = some newTok := by simpa using hpred.1
      exact absurd htok (hfresh v hv)
  have hpredu0 : ∀ t2 : Int, t2 < T + WINDOW → tokenFresh newTok t2 (f u0) = true := by
    intro t2 ht
    rw [hfu0]
    simp only [tokenFresh]
    simp
    omega
  have hmemf : f u0 ∈ users.map f := List.mem_map_of_mem f hu0mem
  refine ⟨by rw [hauth], ?_, fun t2 ht => ?_, fun t3 ht => ?_, fun t2 => rfl⟩
  · rw [hauth]
    exact hfu0 ▸ hmemf
  · rw [hauth]
    unfold get_user_by_token
    rw [find_unique (tokenFresh newTok t2) (users.map f) (f u0) hmemf
      (hpredu0 t2 ht) (huniq t2)]
    rw [hfu0]
  · rw [hauth]
    unfold get_user_by_token
    have hnone : (users.map f).find? (tokenFresh newTok t3) = none := by
      rw [List.find?_eq_none]
      intro b hb hpred
      have hbe := huniq t3 b hb hpred
      rw [hbe, hfu0] at hpred
      simp only [tokenFresh] at hpred
      simp at hpred
      omega
    rw [hnone]

/-- The single registered user for the C8 witness scenario. -/
def aliceRow : UserRec :=
  { id := 1, username := "alice", email := "alice@example.com",
    password_hash := "h", session_token := none, last_login := none }

/-- Witness for C8: alice authenticates at T = 0; her fresh token
resolves at hour 23 and fails at hour 25. -/
theorem c8_session_window_witness :
    [aliceRow].find? (fun v => v.username == "alice") = some aliceRow
    ∧ (fun _ : String => "h") "pw" = aliceRow.password_hash
    ∧ (∀ v ∈ [aliceRow], ¬ v.session_token = some "tok")
    ∧ ([aliceRow].map UserRec.id).Nodup
    ∧ (23 : Int) < 0 + WINDOW ∧ 0 + WINDOW < (25 : Int)
    ∧ get_user_by_token
        (authenticate_user (fun _ => "h") [aliceRow] "alice" "pw" "tok" 0).2 "tok" 23
      = .okUser aliceRow.id aliceRow.username aliceRow.email
    ∧ get_user_by_token
        (authenticate_user (fun _ => "h") [aliceRow] "alice" "pw" "tok" 0).2 "tok" 25
      = .failure "Invalid or expired session token" := by
  refine ⟨by decide, by decide, by decide, by decide, by decide, by decide, ?_, ?_⟩
  · exact (c8_session_window (fun _ => "h") [aliceRow] "alice" "pw" "tok" 0 aliceRow
      (by decide) (by decide) (by decide) (by decide)).2.2.1 23 (by decide)
  · exact (c8_session_window (fun _ => "h") [aliceRow] "alice" "pw" "tok" 0 aliceRow
      (by decide) (by decide) (by decide) (by decide)).2.2.2.1 25 (by decide)

/-- A concrete provider behavior for the C9 counterexample: it only
recognizes the upper-cased request. -/
def c9prov : ProviderReq → ProviderOutcome :=
  fun req =>
    if req.pfrom == "USD" then .resp { result := [("ETB", 157)], updated := "2024-05-01" }
    else .transportErr "bad request"

/-- C9 counterexample: the cache lookup (db.py) treats usd and USD the
same, but the provider client (api.py) does not upper-case: the request
it builds for usd differs from the one for USD, and against a provider
keyed by upper-cased codes the two lookups return different results. -/
theorem c9_provider_not_normalized :
    pyUpper "usd" = pyUpper "USD"
    ∧ ¬ apiBuildRequest "usd" "ETB" = apiBuildRequest "USD" "ETB"
    ∧ dbGetExchangeRate
        [{ from_currency := "USD", to_currency := "ETB", rate := 157, date := "2024-05-01" }]
        "usd" "etb"
      = dbGetExchangeRate
        [{ from_currency := "USD", to_currency := "ETB", rate := 157, date := "2024-05-01" }]
        "USD" "ETB"
    ∧ apiGetExchangeRate c9prov "usd" "ETB" = .ok (.fail "bad request")
    ∧ apiGetExchangeRate c9prov "USD" "ETB" = .ok (.okR 157 "2024-05-01" "USD" "ETB") :=
  ⟨by decide, by decide, by decide, rfl, rfl⟩

/-- C9 amended: currency codes are upper-cased before the cache key
comparison, so cache lookups agree on any two spellings with the same
upper-casing; but the provider request is built from the codes verbatim
(api.py performs no normalization), so lookups that reach the provider
are case sensitive. -/
theorem c9_cache_normalized_provider_raw
    (rows : List RateRow) (f1 t1 f2 t2 : String)
    (hf : pyUpper f1 = pyUpper f2) (ht : pyUpper t1 = pyUpper t2) :
    dbGetExchangeRate rows f1 t1 = dbGetExchangeRate rows f2 t2
    ∧ (∀ f t : String, apiBuildRequest f t
        = { url := "https://api.fastforex.io/fetch-one", pfrom := f, pto := t }) := by
  constructor
  · simp only [dbGetExchangeRate, hf, ht]
  · exact fun f t => rfl

/-- Witness for C9 amended at usd/USD and etb/ETB over a one-row cache. -/
theorem c9_cache_normalized_provider_raw_witness :
    pyUpper "usd" = pyUpper "USD" ∧ pyUpper "etb" = pyUpper "ETB"
    ∧ dbGetExchangeRate
        [{ from_currency := "USD", to_currency := "ETB", rate := 157, date := "2024-05-01" }]
        "usd" "etb"
      = dbGetExchangeRate
        [{ from_currency := "USD", to_currency := "ETB", rate := 157, date := "2024-05-01" }]
        "USD" "ETB"
    ∧ apiBuildRequest "usd" "ETB"
      = { url := "https://api.fastforex.io/fetch-one", pfrom := "usd", pto := "ETB" } := by
  refine ⟨by decide, by decide, ?_, ?_⟩
  · exact (c9_cache_normalized_provider_raw
      [{ from_currency := "USD", to_currency := "ETB", rate := 157, date := "2024-05-01" }]
      "usd" "etb" "USD" "ETB" (by decide) (by decide)).1
  · exact (c9_cache_normalized_provider_raw
      [{ from_currency := "USD", to_currency := "ETB", rate := 157, date := "2024-05-01" }]
      "usd" "etb" "USD" "ETB" (by decide) (by decide)).2 "usd" "ETB"

/-- C10: a token issued by create_user is stored with last_login NULL,
and get_user_by_token requires a last_login within the past 24 hours, so
the registration token never resolves, at any time, until the user first
authenticates. -/
theorem c10_registration_token_never_resolves
    (users : List UserRec) (uname email pwHash tok : String) (nid : Int)
    (hdup : users.any (fun u => u.username == uname || u.email == email
        || u.session_token == some tok) = false) :
    (create_user users uname email pwHash tok nid).1 = some tok
    ∧ (create_user users uname email pwHash tok nid).2
        = users ++ [{ id := nid, username := uname, email := email,
                      password_hash := pwHash, session_token := some tok,
                      last_login := none }]
    ∧ ∀ now : Int,
        get_user_by_token (create_user users uname email pwHash tok nid).2 tok now
          = .failure "Invalid or expired session token" := by
  have hcreate : create_user users uname email pwHash tok nid
      = (some tok, users ++ [{ id := nid, username := uname, email := email,
                               password_hash := pwHash, session_token := some tok,
                               last_login := none }]) := by
    unfold create_user
    rw [hdup]
    rfl
  refine ⟨by rw [hcreate], by rw [hcreate], fun now => ?_⟩
  rw [hcreate]
  unfold get_user_by_token
  have hnone : (users ++ [({ id := nid, username := uname, email := email,
                             password_hash := pwHash, session_token := some tok,
                             last_login := none } : UserRec)]).find? (tokenFresh tok now)
      = none := by
    rw [List.find?_eq_none]
    intro v hv
    rcases List.mem_append.mp hv with hv1 | hv2
    · have hvp := List.any_eq_false.mp hdup v hv1
      have horb : (v.username == uname || v.email == email
          || v.session_token == some tok) = false := Bool.eq_false_iff.mpr hvp
      have hvtok : (v.session_token == some tok) = false :=
        (Bool.or_eq_false_iff.mp horb).2
      simp [tokenFresh, hvtok]
    · have hveq : v = { id := nid, username := uname, email := email,
                        password_hash := pwHash, session_token := some tok,
                        last_login := none } := by
        simpa using hv2
      rw [hveq]
      simp [tokenFresh]
  rw [hnone]

/-- Witness for C10: registering bob into an empty users table yields a
token that does not resolve at hour 0 nor at hour 1000000. -/
theorem c10_registration_token_never_resolves_witness :
    (([] : List UserRec).any (fun u => u.username == "bob" || u.email == "b@example.com"
        || u.session_token == some "tok")) = false
    ∧ (create_user [] "bob" "b@example.com" "ph" "tok" 1).1 = some "tok"
    ∧ get_user_by_token (create_user [] "bob" "b@example.com" "ph" "tok" 1).2 "tok" 0
        = .failure "Invalid or expired session token"
    ∧ get_user_by_token (create_user [] "bob" "b@example.com" "ph" "tok" 1).2 "tok" 1000000
        = .failure "Invalid or expired session token" := by
  refine ⟨by decide, ?_, ?_, ?_⟩
  · exact (c10_registration_token_never_resolves [] "bob" "b@example.com" "ph" "tok" 1
      (by decide)).1
  · exact (c10_registration_token_never_resolves [] "bob" "b@example.com" "ph" "tok" 1
      (by decide)).2.2 0
  · exact (c10_registration_token_never_resolves [] "bob" "b@example.com" "ph" "tok" 1
      (by decide)).2.2 1000000

end FinAssist
